import Mathlib

/-!
Verification development for the yumyummy-mvp MCP servers.

The repository contains near-duplicate HTTP servers exposing one tool,
named get_day_context, which forwards to a backend REST endpoint
GET BACKEND_BASE_URL/day/user_id/day.

We shallowly embed:
  * the sessioned MCP variant (mcp-server/index.js): the session registry
    handling POST / GET / DELETE on the /mcp route, and the zod-validated
    tool handler with its uniform backend_request_failed error descriptor;
  * the raw-JSON variant (the unnamed express server posting
    \x7b tool, input \x7d bodies), whose input validation and backend error
    handling differ from the MCP variant.

JavaScript values appearing in request bodies and backend responses are
modelled by the inductive JsValue below.  Node's crypto.randomUUID is
modelled by a fresh-identifier counter carried in the registry state
(identifiers are opaque; the only property used is that successive draws
never repeat).  The third-party MCP SDK transport is an external
collaborator: dispatching a frame to a transport is recorded in the
outcome, not interpreted further.
-/

namespace YumYummy

/-- Model of a JavaScript/JSON value as seen by the servers.  A number is
either integral (vIntNum) or has a fractional part (vFracNum, carrying its
decimal rendering as produced by JS template interpolation).  vUndefined
models the JS undefined value (absent object fields). -/
inductive JsValue where
  | vNull : JsValue
  | vUndefined : JsValue
  | vBool : Bool → JsValue
  | vIntNum : Int → JsValue
  | vFracNum : String → JsValue
  | vStr : String → JsValue
  | vArr : List JsValue → JsValue
  | vObj : List (String × JsValue) → JsValue

namespace JsValue

/-- JS property access obj.k (or optional chaining obj?.k after a guard):
returns the field value on an object, undefined otherwise. -/
def jsField : JsValue → String → JsValue
  | .vObj fs, k =>
    match fs.find? (fun p => p.1 == k) with
    | some p => p.2
    | none => .vUndefined
  | _, _ => .vUndefined

/-- JS truthiness: null, undefined, false, 0 and the empty string are falsy.
A number with a fractional part is nonzero, hence truthy. -/
def jsTruthy : JsValue → Bool
  | .vNull => false
  | .vUndefined => false
  | .vBool b => b
  | .vIntNum i => decide (i ≠ 0)
  | .vFracNum _ => true
  | .vStr s => decide (s ≠ "")
  | .vArr _ => true
  | .vObj _ => true

/-- JS typeof v === "number". -/
def isNumberV : JsValue → Bool
  | .vIntNum _ => true
  | .vFracNum _ => true
  | _ => false

/-- JS typeof v === "string". -/
def isStringV : JsValue → Bool
  | .vStr _ => true
  | _ => false

/-- The string payload of a vStr (only used under an isStringV guard). -/
def strVal : JsValue → String
  | .vStr s => s
  | _ => ""

/-- Rendering of a JS number by template interpolation (only used under an
isNumberV guard). -/
def renderNum : JsValue → String
  | .vIntNum i => toString i
  | .vFracNum s => s
  | _ => ""

/-- JS nullish coalescing a ?? b: b when a is null or undefined, else a. -/
def nullishOr (a b : JsValue) : JsValue :=
  match a with
  | .vNull => b
  | .vUndefined => b
  | _ => a

/-- JS logical or a || b: b when a is falsy, else a. -/
def jsOr (a b : JsValue) : JsValue :=
  if jsTruthy a then a else b

end JsValue

/-- Escape of one character inside a JSON string literal (quote and
backslash; the servers' payloads contain no control characters). -/
def escapeChar (c : Char) : String :=
  if c = '"' then "\\\"" else if c = '\\' then "\\\\" else String.singleton c

/-- Escape of a string body for JSON output. -/
def escapeString (s : String) : String :=
  String.join (s.toList.map escapeChar)

/-- A JSON string literal with quotes. -/
def quoteJson (s : String) : String :=
  "\"" ++ escapeString s ++ "\""

/-- Model of JSON.stringify on values produced by JSON parsing (an
undefined value, which JSON parsing never produces, is rendered as null). -/
def jsonStringify : JsValue → String
  | .vNull => "null"
  | .vUndefined => "null"
  | .vBool true => "true"
  | .vBool false => "false"
  | .vIntNum i => toString i
  | .vFracNum s => s
  | .vStr s => quoteJson s
  | .vArr xs =>
    "[" ++ String.intercalate "," (xs.attach.map (fun x => jsonStringify x.1)) ++ "]"
  | .vObj fs =>
    "\x7b" ++ String.intercalate ","
      (fs.attach.map (fun f => quoteJson f.1.1 ++ ":" ++ jsonStringify f.1.2)) ++ "\x7d"
decreasing_by
  · have hx := List.sizeOf_lt_of_mem x.2
    simp only [JsValue.vArr.sizeOf_spec]
    omega
  · have hf := List.sizeOf_lt_of_mem f.2
    have hp : sizeOf f.1.2 < sizeOf f.1 := by
      obtain ⟨a, b⟩ := f.1
      simp only [Prod.mk.sizeOf_spec]
      omega
    simp only [JsValue.vObj.sizeOf_spec]
    omega

/-- The day regex from the source, matching a whole string against
four digits, a hyphen, two digits, a hyphen, two digits. -/
def matchesDayPattern (s : String) : Bool :=
  match s.toList with
  | [y1, y2, y3, y4, h1, m1, m2, h2, d1, d2] =>
    y1.isDigit && y2.isDigit && y3.isDigit && y4.isDigit &&
    (h1 == '-') && m1.isDigit && m2.isDigit &&
    (h2 == '-') && d1.isDigit && d2.isDigit
  | _ => false

open JsValue in
/-- Behavior of the single outbound axios GET for one tool call, the only
external suspension point.  httpError: the backend responded with a non-2xx
status (axios rejects with e.response carrying status and data, and a
message on e).  unreachable: the request was sent but no response arrived
(e.request set, e.response absent).  setupError: axios failed before the
request was made (neither e.response nor e.request).  The message fields
are JsValue so that the sources' e?.message ?? fallbacks stay live. -/
inductive BackendBehavior where
  | success : JsValue → BackendBehavior
  | httpError : Nat → JsValue → JsValue → BackendBehavior
  | unreachable : JsValue → BackendBehavior
  | setupError : JsValue → BackendBehavior

/-- One attempted outbound backend call: the URL built from the path
template and the headers attached to it. -/
structure BackendRequest where
  url : String
  headers : List (String × String)
deriving DecidableEq

/-- URL construction from the fixed path template
BACKEND_BASE_URL/day/user_id/day. -/
def dayUrl (base : String) (user_id : Int) (day : String) : String :=
  base ++ "/day/" ++ toString user_id ++ "/" ++ day

/-- Headers of the outbound call: the optional fixed internal
authentication header when a token is configured. -/
def tokenHeaders : Option String → List (String × String)
  | some t => [("X-Internal-Token", t)]
  | none => []

/-- One item of MCP tool output content. -/
structure ContentItem where
  type : String
  text : String
deriving DecidableEq

/-- Result value returned by an MCP tool handler. -/
structure ToolResult where
  content : List ContentItem
deriving DecidableEq

open JsValue in
/-- The get_day_context tool handler body of the MCP variants, translated
from the async closure in mcp-server/index.js: on success the backend body
is stringified into one text content item; on any failure the catch block
builds the object with keys error, status, details, where
status is e?.response?.status ?? null and
details is e?.response?.data ?? e?.message ?? "unknown".  The handler
builds the URL from the path template, attaches the optional internal
token header and issues exactly one GET; the issued request is returned
alongside the result. -/
def getDayContextHandler (base : String) (token : Option String)
    (user_id : Int) (day : String)
    (backend : BackendBehavior) : ToolResult × BackendRequest :=
  ((match backend with
  | .success data =>
    { content := [{ type := "text", text := jsonStringify data }] }
  | .httpError status data msg =>
    { content := [{ type := "text", text := jsonStringify (.vObj
        [("error", .vStr "backend_request_failed"),
         ("status", .vIntNum status),
         ("details", nullishOr data (nullishOr msg (.vStr "unknown")))]) }] }
  | .unreachable msg =>
    { content := [{ type := "text", text := jsonStringify (.vObj
        [("error", .vStr "backend_request_failed"),
         ("status", .vNull),
         ("details", nullishOr msg (.vStr "unknown"))]) }] }
  | .setupError msg =>
    { content := [{ type := "text", text := jsonStringify (.vObj
        [("error", .vStr "backend_request_failed"),
         ("status", .vNull),
         ("details", nullishOr msg (.vStr "unknown"))]) }] } : ToolResult),
   { url := dayUrl base user_id day, headers := tokenHeaders token })

open JsValue in
/-- The zod input schema of the tool, from
user_id: z.number().int() and day: z.string().regex of the day pattern:
parsing succeeds exactly on an integral number and a matching string. -/
def zodParseArgs (args : JsValue) : Option (Int × String) :=
  match jsField args "user_id", jsField args "day" with
  | .vIntNum i, .vStr d =>
    if matchesDayPattern d then some (i, d) else none
  | _, _ => none

/-- Outcome of invoking the get_day_context tool through the MCP server:
either the handler ran and produced a tool result, or the SDK rejected the
arguments against the zod schema before the handler ran. -/
inductive ToolCallOutcome where
  | ok : ToolResult → ToolCallOutcome
  | invalidArgument : ToolCallOutcome
deriving DecidableEq

/-- A tools/call of get_day_context on the MCP variants: schema validation
first (rejection makes no backend call), then the handler with its single
outbound GET.  The second component lists the attempted backend calls. -/
def mcpCallGetDayContext (base : String) (token : Option String)
    (args : JsValue) (backend : BackendBehavior) :
    ToolCallOutcome × List BackendRequest :=
  match zodParseArgs args with
  | none => (.invalidArgument, [])
  | some (uid, day) =>
    let (r, req) := getDayContextHandler base token uid day backend
    (.ok r, [req])

/-- An HTTP response of the raw-JSON express variant: status code and JSON
body. -/
structure HttpResponse where
  status : Nat
  body : JsValue

open JsValue in
/-- Rendering of a JS value by template interpolation (used by the
raw-JSON variant for the unknown-tool message). -/
def jsToString : JsValue → String
  | .vNull => "null"
  | .vUndefined => "undefined"
  | .vBool true => "true"
  | .vBool false => "false"
  | .vIntNum i => toString i
  | .vFracNum s => s
  | .vStr s => s
  | .vArr _ => ""
  | .vObj _ => "[object Object]"

/-- JS strict equality of a value against a string literal. -/
def strictEqStr : JsValue → String → Bool
  | .vStr s, t => s == t
  | _, _ => false

open JsValue in
/-- The POST /mcp handler of the raw-JSON express variant, translated
branch by branch: destructure tool and input from the body; reject a falsy
tool; for get_day_context, reject when input is falsy, user_id is not a
number by typeof, or day is not a string by typeof, then reject a day
failing the date regex; otherwise issue the backend GET and either pass
the body through as the output field or map the three axios failure cases
to status-passthrough, 502 and 500 envelopes.  Unknown tools are rejected.
The second component lists the attempted backend calls. -/
def rawHandlePost (base : String) (token : Option String) (body : JsValue)
    (backend : BackendBehavior) : HttpResponse × List BackendRequest :=
  let tool := jsField body "tool"
  if !(jsTruthy tool) then
    (⟨400, .vObj [("error", .vStr "Missing \"tool\" field in request body")]⟩, [])
  else
    if strictEqStr tool "get_day_context" then
      let input := jsField body "input"
      let uidV := jsField input "user_id"
      let dayV := jsField input "day"
      if !(jsTruthy input) || !(isNumberV uidV) || !(isStringV dayV) then
        (⟨400, .vObj [("error",
          .vStr "Invalid input. Expected: \x7b user_id: number, day: string (YYYY-MM-DD) \x7d")]⟩, [])
      else if !(matchesDayPattern (strVal dayV)) then
        (⟨400, .vObj [("error", .vStr "Invalid date format. Expected YYYY-MM-DD")]⟩, [])
      else
        let req : BackendRequest :=
          { url := base ++ "/day/" ++ renderNum uidV ++ "/" ++ strVal dayV,
            headers := tokenHeaders token }
        match backend with
        | .success data =>
          (⟨200, .vObj [("tool", .vStr "get_day_context"), ("output", data)]⟩, [req])
        | .httpError status data _ =>
          (⟨status, .vObj
            [("error", .vStr ("Backend error: " ++ toString status)),
             ("message", jsOr (jsField data "detail")
               (jsOr (jsField data "message") (.vStr "Unknown error")))]⟩, [req])
        | .unreachable _ =>
          (⟨502, .vObj
            [("error", .vStr "Backend unreachable"),
             ("message", .vStr "Could not connect to backend server")]⟩, [req])
        | .setupError msg =>
          (⟨500, .vObj
            [("error", .vStr "Request setup error"),
             ("message", msg)]⟩, [req])
    else
      (⟨400, .vObj [("error",
        .vStr ("Unknown tool: " ++ jsToString tool ++ ". Supported tools: get_day_context"))]⟩, [])

/-- A tool registration on the MCP server: name and description (the input
schema is modelled separately by zodParseArgs). -/
structure ToolReg where
  name : String
  description : String
deriving DecidableEq

/-- The MCP tool-server instance built by createMcpServer: server info and
the list of registered tools. -/
structure McpModel where
  name : String
  version : String
  tools : List ToolReg
deriving DecidableEq

/-- createMcpServer from mcp-server/index.js: a server named
yumyummy-mcp-server, version 1.0.0, with the single get_day_context tool
registered. -/
def createMcpServer : McpModel :=
  { name := "yumyummy-mcp-server",
    version := "1.0.0",
    tools := [{ name := "get_day_context",
                description := "Get day nutrition summary from YumYummy backend" }] }

/-- A StreamableHTTPServerTransport as stored in the registry: the session
identifier its sessionIdGenerator yields and the connected tool-server
instance. -/
structure Transport where
  sid : Nat
  server : McpModel
deriving DecidableEq

/-- State of the sessioned variant: the module-level transports map
(modelled as an association list with the most recent binding first, which
matches Map lookup semantics) and the fresh-identifier supply standing for
crypto.randomUUID (successive draws never collide; identifiers are
opaque tokens, modelled as naturals). -/
structure RegistryState where
  transports : List (Nat × Transport)
  nextUuid : Nat
deriving DecidableEq

namespace RegistryState

/-- Map.get / Map.has on the transports map. -/
def findTransport (st : RegistryState) (sid : Nat) : Option Transport :=
  match st.transports.find? (fun p => p.1 == sid) with
  | some p => some p.2
  | none => none

/-- Well-formedness carried by the fresh-identifier model: every registered
identifier was drawn earlier than the next one. -/
def wf (st : RegistryState) : Prop :=
  ∀ p ∈ st.transports, p.1 < st.nextUuid

end RegistryState

/-- Outcome of the POST /mcp route: either the frame was dispatched to a
transport via transport.handleRequest (newSession carries the freshly
allocated identifier returned out-of-band in the mcp-session-id response
header when the initialize branch ran), or a protocol-shaped JSON-RPC
error envelope was returned with an HTTP status, an error code and a
message, and no transport was touched.  Backend calls only ever happen
inside a dispatched tool call, so an error outcome makes none. -/
inductive PostOutcome where
  | dispatched : Nat → Option Nat → PostOutcome
  | errorResp : Nat → Int → String → PostOutcome
deriving DecidableEq

/-- The POST /mcp handler of the sessioned variant.  A session identifier
is the mcp-session-id header when it is truthy (none models an absent or
empty header); method is the frame's method field.  Branch order follows
the source: reuse a known session; else on no session and initialize,
draw a fresh identifier, build a transport bound to a freshly built
tool-server, register it and dispatch; else on no session reject with the
no-session envelope; else reject with the session-not-found envelope. -/
def handlePost (st : RegistryState) (sessionId : Option Nat)
    (method : Option String) : RegistryState × PostOutcome :=
  match sessionId with
  | some sid =>
    if (st.findTransport sid).isSome then
      (st, .dispatched sid none)
    else
      (st, .errorResp 400 (-32000) "Session not found")
  | none =>
    if method = some "initialize" then
      let newSessionId := st.nextUuid
      let transport : Transport := { sid := newSessionId, server := createMcpServer }
      ({ transports := (newSessionId, transport) :: st.transports,
         nextUuid := st.nextUuid + 1 },
       .dispatched newSessionId (some newSessionId))
    else
      (st, .errorResp 400 (-32000) "No session. Send initialize first.")

/-- Outcome of the GET /mcp route: dispatch to the session's transport or
a protocol-shaped error envelope. -/
inductive GetOutcome where
  | dispatched : Nat → GetOutcome
  | errorResp : Nat → Int → String → GetOutcome
deriving DecidableEq

/-- The GET /mcp handler of the sessioned variant: reject when the session
header is absent or unknown, otherwise dispatch to the transport.  The
handler contains no mutation of the transports map, so the state is
returned unchanged. -/
def handleGet (st : RegistryState) (sessionId : Option Nat) :
    RegistryState × GetOutcome :=
  match sessionId with
  | none => (st, .errorResp 400 (-32000) "Invalid or missing session")
  | some sid =>
    if (st.findTransport sid).isSome then
      (st, .dispatched sid)
    else
      (st, .errorResp 400 (-32000) "Invalid or missing session")

/-- Outcome of the DELETE /mcp route: the HTTP status sent (always 204)
and the session whose transport.close() was awaited, if any. -/
structure DeleteOutcome where
  status : Nat
  closedSession : Option Nat
deriving DecidableEq

/-- Map.delete on the transports map. -/
def removeTransport (m : List (Nat × Transport)) (sid : Nat) :
    List (Nat × Transport) :=
  m.filter (fun p => p.1 ≠ sid)

/-- The DELETE /mcp handler of the sessioned variant: when the header
carries a known session, close its transport and delete the mapping;
in every case respond 204. -/
def handleDelete (st : RegistryState) (sessionId : Option Nat) :
    RegistryState × DeleteOutcome :=
  match sessionId with
  | some sid =>
    if (st.findTransport sid).isSome then
      ({ st with transports := removeTransport st.transports sid },
       { status := 204, closedSession := some sid })
    else
      (st, { status := 204, closedSession := none })
  | none => (st, { status := 204, closedSession := none })

/-- The claim's notion of a bad tool input: the user_id argument is not an
integral number, or the day argument is not a string matching the day
pattern. -/
def badToolArgs (args : JsValue) : Prop :=
  (∀ i : Int, args.jsField "user_id" ≠ JsValue.vIntNum i)
  ∨ (∀ d : String, args.jsField "day" ≠ JsValue.vStr d)
  ∨ (∃ d : String, args.jsField "day" = JsValue.vStr d ∧ matchesDayPattern d = false)

/-- Does the raw-JSON variant's input carry a day field that is a string
matching the day pattern? -/
def rawDayMatches (body : JsValue) : Bool :=
  match (body.jsField "input").jsField "day" with
  | .vStr d => matchesDayPattern d
  | _ => false

/-- A body on which the raw-JSON variant's validation succeeds: the tool
field is exactly get_day_context, the input is truthy, user_id passes the
typeof number check, day passes the typeof string check and matches the
day pattern. -/
def rawValidCall (body : JsValue) : Prop :=
  body.jsField "tool" = JsValue.vStr "get_day_context"
  ∧ JsValue.jsTruthy (body.jsField "input") = true
  ∧ JsValue.isNumberV ((body.jsField "input").jsField "user_id") = true
  ∧ JsValue.isStringV ((body.jsField "input").jsField "day") = true
  ∧ matchesDayPattern (JsValue.strVal ((body.jsField "input").jsField "day")) = true

/-- The uniform error descriptor of the specification, with kind fixed at
backend_request_failed (the kind is serialized under the JSON key error),
an optional backend status and opaque details. -/
def errorDescriptor (status details : JsValue) : JsValue :=
  .vObj [("error", .vStr "backend_request_failed"),
         ("status", status),
         ("details", details)]

/-- Discriminator: did the POST outcome dispatch the frame to a transport?
Backend calls happen only inside a dispatched tool call, so an outcome
with isDispatchedPost false makes no backend call. -/
def PostOutcome.isDispatchedPost : PostOutcome → Bool
  | .dispatched _ _ => true
  | .errorResp _ _ _ => false

/-- Discriminator: did the GET outcome dispatch to a transport? -/
def GetOutcome.isDispatchedGet : GetOutcome → Bool
  | .dispatched _ => true
  | .errorResp _ _ _ => false

theorem findTransport_nextUuid_of_wf (st : RegistryState) (h : st.wf) :
    st.findTransport st.nextUuid = none := by
  have hfind : st.transports.find? (fun p => p.1 == st.nextUuid) = none := by
    refine List.find?_eq_none.mpr (fun p hp => ?_)
    simp only [beq_iff_eq]
    exact Nat.ne_of_lt (h p hp)
  simp [RegistryState.findTransport, hfind]

theorem findTransport_removeTransport (st : RegistryState) (sid : Nat) :
    RegistryState.findTransport
      { st with transports := removeTransport st.transports sid } sid = none := by
  have hfind : (removeTransport st.transports sid).find?
      (fun p => p.1 == sid) = none := by
    refine List.find?_eq_none.mpr (fun p hp => ?_)
    have hmem := List.mem_filter.mp hp
    simpa using hmem.2
  simp [RegistryState.findTransport, hfind]

/-- C1: an inbound POST frame with no session identifier and method
initialize allocates a fresh identifier not yet in the mapping, registers
a new transport bound to a freshly built tool-server instance under that
identifier, dispatches the frame to it and returns the identifier
out-of-band; the registry stays well-formed, and a second such initialize
yields a distinct identifier. -/
theorem initialize_creates_fresh_session (st : RegistryState) (h : st.wf) :
    (handlePost st none (some "initialize")).2
        = .dispatched st.nextUuid (some st.nextUuid)
    ∧ st.findTransport st.nextUuid = none
    ∧ (handlePost st none (some "initialize")).1.findTransport st.nextUuid
        = some { sid := st.nextUuid, server := createMcpServer }
    ∧ (handlePost st none (some "initialize")).1.wf
    ∧ (handlePost (handlePost st none (some "initialize")).1 none
          (some "initialize")).2
        = .dispatched (st.nextUuid + 1) (some (st.nextUuid + 1))
    ∧ st.nextUuid + 1 ≠ st.nextUuid := by
  have hfresh := findTransport_nextUuid_of_wf st h
  have hstep : handlePost st none (some "initialize")
      = (⟨(st.nextUuid, ⟨st.nextUuid, createMcpServer⟩) :: st.transports,
          st.nextUuid + 1⟩,
         .dispatched st.nextUuid (some st.nextUuid)) := by
    simp [handlePost]
  have hwf2 : (⟨(st.nextUuid, ⟨st.nextUuid, createMcpServer⟩) :: st.transports,
      st.nextUuid + 1⟩ : RegistryState).wf := by
    intro p hp
    rcases List.mem_cons.mp hp with hp1 | hp2
    · subst hp1; exact Nat.lt_succ_self _
    · exact Nat.lt_succ_of_lt (h p hp2)
  rw [hstep]
  refine ⟨rfl, hfresh, ?_, hwf2, ?_, by omega⟩
  · simp [RegistryState.findTransport]
  · simp [handlePost]

theorem initialize_creates_fresh_session_witness :
    (handlePost ⟨[], 5⟩ none (some "initialize")).2 = .dispatched 5 (some 5)
    ∧ (handlePost ⟨[], 5⟩ none (some "initialize")).1.findTransport 5
        = some { sid := 5, server := createMcpServer } :=
  ⟨(initialize_creates_fresh_session ⟨[], 5⟩ (by intro p hp; simp at hp)).1,
   (initialize_creates_fresh_session ⟨[], 5⟩ (by intro p hp; simp at hp)).2.2.1⟩

/-- C2: a POST frame with no session identifier and a method other than
initialize is answered by the protocol-shaped no-session error envelope
(HTTP 400, JSON-RPC code -32000), the state (in particular the session
mapping) is unchanged, and the frame is never dispatched to a transport,
so no backend call is made. -/
theorem no_session_non_initialize_rejected (st : RegistryState)
    (method : Option String) (h : method ≠ some "initialize") :
    handlePost st none method
      = (st, .errorResp 400 (-32000) "No session. Send initialize first.")
    ∧ (handlePost st none method).2.isDispatchedPost = false := by
  refine ⟨by simp [handlePost, h], ?_⟩
  simp [handlePost, h, PostOutcome.isDispatchedPost]

theorem no_session_non_initialize_rejected_witness :
    handlePost ⟨[], 0⟩ none (some "tools/call")
      = (⟨[], 0⟩, .errorResp 400 (-32000) "No session. Send initialize first.") :=
  (no_session_non_initialize_rejected ⟨[], 0⟩ (some "tools/call")
    (by decide)).1

/-- C3: a POST frame whose session identifier is not registered in the
mapping is answered by the session-not-found envelope (HTTP 400, JSON-RPC
code -32000) whatever the method is, initialize included; the state is
unchanged and nothing is dispatched. -/
theorem unknown_session_rejected (st : RegistryState) (sid : Nat)
    (method : Option String) (h : st.findTransport sid = none) :
    handlePost st (some sid) method
      = (st, .errorResp 400 (-32000) "Session not found")
    ∧ (handlePost st (some sid) method).2.isDispatchedPost = false := by
  refine ⟨by simp [handlePost, h], ?_⟩
  simp [handlePost, h, PostOutcome.isDispatchedPost]

theorem unknown_session_rejected_witness :
    handlePost ⟨[], 0⟩ (some 7) (some "initialize")
      = (⟨[], 0⟩, .errorResp 400 (-32000) "Session not found") :=
  (unknown_session_rejected ⟨[], 0⟩ 7 (some "initialize") rfl).1

/-- C4: closeSession is idempotent.  Deleting a known session closes its
transport, removes exactly that mapping entry and answers 204; deleting an
unknown session is a no-op that still answers 204; closing the same
session twice succeeds both times and leaves the same state as closing it
once. -/
theorem close_session_idempotent (st : RegistryState) (sid : Nat) :
    ((st.findTransport sid).isSome = true →
      (handleDelete st (some sid)).1.transports
          = removeTransport st.transports sid
      ∧ (handleDelete st (some sid)).2 = ⟨204, some sid⟩
      ∧ (handleDelete st (some sid)).1.findTransport sid = none)
    ∧ (st.findTransport sid = none →
      handleDelete st (some sid) = (st, ⟨204, none⟩))
    ∧ (handleDelete (handleDelete st (some sid)).1 (some sid)).1
        = (handleDelete st (some sid)).1
    ∧ (handleDelete (handleDelete st (some sid)).1 (some sid)).2.status = 204
    ∧ (handleDelete st (some sid)).2.status = 204 := by
  refine ⟨?_, ?_, ?_, ?_, ?_⟩
  · intro hsome
    refine ⟨by simp [handleDelete, hsome], by simp [handleDelete, hsome], ?_⟩
    simp only [handleDelete, hsome, if_true]
    exact findTransport_removeTransport st sid
  · intro hnone
    simp [handleDelete, hnone]
  · rcases hcase : st.findTransport sid with _ | t
    · simp [handleDelete, hcase]
    · have h1 : (handleDelete st (some sid)).1
          = { st with transports := removeTransport st.transports sid } := by
        simp [handleDelete, hcase]
      rw [h1]
      simp [handleDelete, findTransport_removeTransport st sid]
  · rcases hcase : st.findTransport sid with _ | t
    · simp [handleDelete, hcase]
    · have h1 : (handleDelete st (some sid)).1
          = { st with transports := removeTransport st.transports sid } := by
        simp [handleDelete, hcase]
      rw [h1]
      simp [handleDelete, findTransport_removeTransport st sid]
  · rcases hcase : st.findTransport sid with _ | t <;> simp [handleDelete, hcase]

theorem close_session_idempotent_witness :
    (handleDelete ⟨[(3, ⟨3, createMcpServer⟩)], 4⟩ (some 3)).2 = ⟨204, some 3⟩
    ∧ (handleDelete (handleDelete ⟨[(3, ⟨3, createMcpServer⟩)], 4⟩ (some 3)).1
          (some 3)).1
        = (handleDelete ⟨[(3, ⟨3, createMcpServer⟩)], 4⟩ (some 3)).1 :=
  ⟨((close_session_idempotent ⟨[(3, ⟨3, createMcpServer⟩)], 4⟩ 3).1
      (by decide)).2.1,
   (close_session_idempotent ⟨[(3, ⟨3, createMcpServer⟩)], 4⟩ 3).2.2.1⟩

/-- C9: the transports mapping is mutated only by initialize and close.
A POST either leaves the mapping unchanged or, exactly in the
no-session-and-initialize case, performs a single insert of a key not
previously in the mapping; a GET never changes the state; a DELETE either
leaves the mapping unchanged or removes exactly the addressed key. -/
theorem transports_mutated_only_by_initialize_and_close
    (st : RegistryState) (sid : Option Nat) (method : Option String)
    (h : st.wf) :
    ((handlePost st sid method).1.transports = st.transports
      ∨ (sid = none ∧ method = some "initialize"
         ∧ st.findTransport st.nextUuid = none
         ∧ (handlePost st sid method).1.transports
             = (st.nextUuid, ⟨st.nextUuid, createMcpServer⟩) :: st.transports))
    ∧ (handleGet st sid).1 = st
    ∧ ((handleDelete st sid).1.transports = st.transports
       ∨ ∃ s, sid = some s
         ∧ (handleDelete st sid).1.transports
             = removeTransport st.transports s) := by
  refine ⟨?_, ?_, ?_⟩
  · match sid with
    | some s =>
      left
      rcases hcase : st.findTransport s with _ | t <;> simp [handlePost, hcase]
    | none =>
      by_cases hm : method = some "initialize"
      · right
        exact ⟨rfl, hm, findTransport_nextUuid_of_wf st h, by simp [handlePost, hm]⟩
      · left
        simp [handlePost, hm]
  · match sid with
    | some s =>
      rcases hcase : st.findTransport s with _ | t <;> simp [handleGet, hcase]
    | none => simp [handleGet]
  · match sid with
    | some s =>
      rcases hcase : st.findTransport s with _ | t
      · left; simp [handleDelete, hcase]
      · right; exact ⟨s, rfl, by simp [handleDelete, hcase]⟩
    | none => left; simp [handleDelete]

theorem transports_mutated_only_by_initialize_and_close_witness :
    (handleGet ⟨[], 0⟩ none).1 = ⟨[], 0⟩
    ∧ ((handleDelete ⟨[], 0⟩ (some 2)).1.transports = ([] : List (Nat × Transport))
       ∨ ∃ s, (some 2 : Option Nat) = some s
         ∧ (handleDelete ⟨[], 0⟩ (some 2)).1.transports = removeTransport [] s) :=
  ⟨(transports_mutated_only_by_initialize_and_close ⟨[], 0⟩ none none
      (by intro p hp; simp at hp)).2.1,
   (transports_mutated_only_by_initialize_and_close ⟨[], 0⟩ (some 2) none
      (by intro p hp; simp at hp)).2.2⟩

/-- C10: a GET on the MCP endpoint whose session header is absent or
unknown is answered by the protocol-shaped invalid-or-missing-session
envelope (HTTP 400, JSON-RPC code -32000) and is never dispatched to a
transport; no GET request changes the registry state. -/
theorem get_rejected_without_known_session (st : RegistryState)
    (sid : Option Nat) :
    ((sid = none ∨ ∃ s, sid = some s ∧ st.findTransport s = none) →
      (handleGet st sid).2 = .errorResp 400 (-32000) "Invalid or missing session"
      ∧ (handleGet st sid).2.isDispatchedGet = false)
    ∧ (handleGet st sid).1 = st := by
  constructor
  · intro hbad
    rcases hbad with hnone | ⟨s, hs, hunknown⟩
    · subst hnone
      exact ⟨by simp [handleGet], by simp [handleGet, GetOutcome.isDispatchedGet]⟩
    · subst hs
      exact ⟨by simp [handleGet, hunknown],
             by simp [handleGet, hunknown, GetOutcome.isDispatchedGet]⟩
  · match sid with
    | some s =>
      rcases hcase : st.findTransport s with _ | t <;> simp [handleGet, hcase]
    | none => simp [handleGet]

theorem get_rejected_without_known_session_witness :
    (handleGet ⟨[], 0⟩ (some 9)).2
      = .errorResp 400 (-32000) "Invalid or missing session"
    ∧ (handleGet ⟨[], 0⟩ (some 9)).1 = ⟨[], 0⟩ :=
  ⟨((get_rejected_without_known_session ⟨[], 0⟩ (some 9)).1
      (Or.inr ⟨9, rfl, rfl⟩)).1,
   (get_rejected_without_known_session ⟨[], 0⟩ (some 9)).2⟩

theorem rawHandlePost_attempt_conditions (base : String)
    (token : Option String) (body : JsValue) (backend : BackendBehavior)
    (hne : (rawHandlePost base token body backend).2 ≠ []) :
    JsValue.isNumberV ((body.jsField "input").jsField "user_id") = true
    ∧ JsValue.isStringV ((body.jsField "input").jsField "day") = true
    ∧ matchesDayPattern (JsValue.strVal ((body.jsField "input").jsField "day")) = true := by
  simp only [rawHandlePost] at hne
  split at hne
  · exact absurd rfl hne
  · split at hne
    · split at hne
      · exact absurd rfl hne
      · split at hne
        · exact absurd rfl hne
        · rename_i hcond hday
          simp only [Bool.not_eq_true', Bool.or_eq_true, not_or,
            Bool.not_eq_false] at hcond
          simp only [Bool.not_eq_true', Bool.not_eq_false] at hday
          refine ⟨?_, ?_, hday⟩ <;> tauto
    · exact absurd rfl hne

theorem zodParseArgs_eq_none_of_bad (args : JsValue) (hbad : badToolArgs args) :
    zodParseArgs args = none := by
  unfold zodParseArgs
  split
  · rename_i i d hu hd
    rcases hbad with h1 | h2 | ⟨d', hd', hm⟩
    · exact absurd hu (h1 i)
    · exact absurd hd (h2 d)
    · have : d' = d := by
        rw [hd] at hd'
        exact (JsValue.vStr.inj hd').symm
      subst this
      rw [if_neg (by simp [hm])]
  · rfl

/-- C5 counterexample: the raw-JSON variant checks user_id only with
typeof number, so the non-integral user_id 1.5 with a well-formed day
passes its validation, a backend call is attempted and the backend body
is relayed with status 200 instead of the input being rejected. -/
theorem raw_variant_accepts_nonintegral_user_id :
    (rawHandlePost "http://backend" none
       (.vObj [("tool", .vStr "get_day_context"),
               ("input", .vObj [("user_id", .vFracNum "1.5"),
                                ("day", .vStr "2024-01-15")])])
       (.success .vNull)).2
      = [{ url := "http://backend/day/1.5/2024-01-15", headers := [] }]
    ∧ (rawHandlePost "http://backend" none
       (.vObj [("tool", .vStr "get_day_context"),
               ("input", .vObj [("user_id", .vFracNum "1.5"),
                                ("day", .vStr "2024-01-15")])])
       (.success .vNull)).1.status = 200 := ⟨rfl, rfl⟩

/-- C5 amended: in the MCP variants, a tools/call argument object whose
user_id is not an integral number or whose day is not a string matching
the day pattern is rejected by the zod schema before the handler runs, so
no backend call is attempted; the raw-JSON variant likewise makes no
backend call when user_id fails its typeof number check or when the day
field is not a pattern-matching string, but (per the counterexample) it
accepts non-integral numeric user_id values. -/
theorem invalid_tool_input_rejected_before_network
    (base : String) (token : Option String) (args body : JsValue)
    (backend : BackendBehavior) :
    (badToolArgs args →
      mcpCallGetDayContext base token args backend = (.invalidArgument, []))
    ∧ (JsValue.isNumberV ((body.jsField "input").jsField "user_id") = false →
      (rawHandlePost base token body backend).2 = [])
    ∧ (rawDayMatches body = false →
      (rawHandlePost base token body backend).2 = []) := by
  refine ⟨?_, ?_, ?_⟩
  · intro hbad
    simp [mcpCallGetDayContext, zodParseArgs_eq_none_of_bad args hbad]
  · intro hnum
    by_cases hne : (rawHandlePost base token body backend).2 = []
    · exact hne
    · have := (rawHandlePost_attempt_conditions base token body backend hne).1
      rw [this] at hnum
      exact absurd hnum (by decide)
  · intro hday
    by_cases hne : (rawHandlePost base token body backend).2 = []
    · exact hne
    · obtain ⟨-, hstr, hmatch⟩ :=
        rawHandlePost_attempt_conditions base token body backend hne
      have : rawDayMatches body = true := by
        unfold rawDayMatches
        rcases hcase : (body.jsField "input").jsField "day" with _|_|b|i|s|d|xs|fs
          <;> rw [hcase] at hstr hmatch
          <;> simp [JsValue.isStringV] at hstr
        simpa [JsValue.strVal] using hmatch
      rw [this] at hday
      exact absurd hday (by decide)

theorem invalid_tool_input_rejected_before_network_witness :
    mcpCallGetDayContext "http://backend" none
        (.vObj [("user_id", .vIntNum 1), ("day", .vStr "2024-1-15")])
        (.success .vNull)
      = (.invalidArgument, [])
    ∧ (rawHandlePost "http://backend" none
        (.vObj [("tool", .vStr "get_day_context"),
                ("input", .vObj [("user_id", .vIntNum 1),
                                 ("day", .vStr "2024-1-15")])])
        (.success .vNull)).2 = [] :=
  ⟨(invalid_tool_input_rejected_before_network "http://backend" none
      (.vObj [("user_id", .vIntNum 1), ("day", .vStr "2024-1-15")])
      (.vObj []) (.success .vNull)).1
      (Or.inr (Or.inr ⟨"2024-1-15", rfl, rfl⟩)),
   (invalid_tool_input_rejected_before_network "http://backend" none
      (.vObj [])
      (.vObj [("tool", .vStr "get_day_context"),
              ("input", .vObj [("user_id", .vIntNum 1),
                               ("day", .vStr "2024-1-15")])])
      (.success .vNull)).2.2 rfl⟩

/-- C6 counterexample: on a backend 500 with a detail body, the raw-JSON
variant answers with a Backend error envelope whose error field is not
backend_request_failed and which carries no uniform kind-status-details
descriptor, so the normalization claim fails on that variant. -/
theorem raw_variant_does_not_normalize_backend_errors :
    (rawHandlePost "http://backend" none
       (.vObj [("tool", .vStr "get_day_context"),
               ("input", .vObj [("user_id", .vIntNum 2),
                                ("day", .vStr "2024-02-20")])])
       (.httpError 500 (.vObj [("detail", .vStr "boom")])
         (.vStr "Request failed with status code 500"))).1
      = ⟨500, .vObj [("error", .vStr "Backend error: 500"),
                     ("message", .vStr "boom")]⟩
    ∧ JsValue.jsField (rawHandlePost "http://backend" none
       (.vObj [("tool", .vStr "get_day_context"),
               ("input", .vObj [("user_id", .vIntNum 2),
                                ("day", .vStr "2024-02-20")])])
       (.httpError 500 (.vObj [("detail", .vStr "boom")])
         (.vStr "Request failed with status code 500"))).1.body "error"
      ≠ .vStr "backend_request_failed" := by
  refine ⟨rfl, fun h => ?_⟩
  have h2 : ("Backend error: 500" : String) = "backend_request_failed" :=
    JsValue.vStr.inj h
  exact absurd h2 (by decide)

/-- C6 amended: the MCP variants normalize each of the three backend
failure cases into the uniform descriptor with kind fixed at
backend_request_failed, status carried from the backend response (null
when none arrived) and details from the backend body or the error
message; the raw-JSON variant distinguishes the same three cases but maps
them to three distinct protocol envelopes (backend status passthrough,
502, 500) instead of the uniform descriptor. -/
theorem backend_failures_normalized (base : String) (token : Option String)
    (uid : Int) (day : String) (s : Nat) (data msg body : JsValue)
    (hbody : rawValidCall body) :
    (getDayContextHandler base token uid day (.httpError s data msg)).1
      = ⟨[⟨"text", jsonStringify (errorDescriptor (.vIntNum s)
          (JsValue.nullishOr data (JsValue.nullishOr msg (.vStr "unknown"))))⟩]⟩
    ∧ (getDayContextHandler base token uid day (.unreachable msg)).1
      = ⟨[⟨"text", jsonStringify (errorDescriptor .vNull
          (JsValue.nullishOr msg (.vStr "unknown")))⟩]⟩
    ∧ (getDayContextHandler base token uid day (.setupError msg)).1
      = ⟨[⟨"text", jsonStringify (errorDescriptor .vNull
          (JsValue.nullishOr msg (.vStr "unknown")))⟩]⟩
    ∧ JsValue.jsField (errorDescriptor (.vIntNum s)
        (JsValue.nullishOr data (JsValue.nullishOr msg (.vStr "unknown")))) "error"
      = .vStr "backend_request_failed"
    ∧ (rawHandlePost base token body (.httpError s data msg)).1.status = s
    ∧ (rawHandlePost base token body (.unreachable msg)).1.status = 502
    ∧ (rawHandlePost base token body (.setupError msg)).1.status = 500 := by
  obtain ⟨htool, hinput, hnum, hstr, hday⟩ := hbody
  have htruthy : JsValue.jsTruthy (JsValue.vStr "get_day_context") = true := rfl
  have hstreq : strictEqStr (JsValue.vStr "get_day_context") "get_day_context"
      = true := rfl
  refine ⟨rfl, rfl, rfl, rfl, ?_, ?_, ?_⟩
    <;> simp [rawHandlePost, htool, htruthy, hstreq, hinput, hnum, hstr, hday]

theorem backend_failures_normalized_witness :
    (getDayContextHandler "http://backend" none 2 "2024-02-21"
        (.unreachable (.vStr "connect ECONNREFUSED"))).1
      = ⟨[⟨"text", jsonStringify (errorDescriptor .vNull
          (JsValue.nullishOr (.vStr "connect ECONNREFUSED") (.vStr "unknown")))⟩]⟩
    ∧ (rawHandlePost "http://backend" none
        (.vObj [("tool", .vStr "get_day_context"),
                ("input", .vObj [("user_id", .vIntNum 2),
                                 ("day", .vStr "2024-02-21")])])
        (.unreachable (.vStr "connect ECONNREFUSED"))).1.status = 502 :=
  ⟨(backend_failures_normalized "http://backend" none 2 "2024-02-21" 0
      .vNull (.vStr "connect ECONNREFUSED")
      (.vObj [("tool", .vStr "get_day_context"),
              ("input", .vObj [("user_id", .vIntNum 2),
                               ("day", .vStr "2024-02-21")])])
      ⟨rfl, rfl, rfl, rfl, rfl⟩).2.1,
   (backend_failures_normalized "http://backend" none 2 "2024-02-21" 0
      .vNull (.vStr "connect ECONNREFUSED")
      (.vObj [("tool", .vStr "get_day_context"),
              ("input", .vObj [("user_id", .vIntNum 2),
                               ("day", .vStr "2024-02-21")])])
      ⟨rfl, rfl, rfl, rfl, rfl⟩).2.2.2.2.2.1⟩

/-- C7 counterexample: on a backend 500, the raw-JSON variant answers
with protocol-level HTTP status 500 (the backend status passed through as
the response status), not with an error descriptor inside a tool result. -/
theorem raw_variant_propagates_backend_500 :
    (rawHandlePost "http://backend" none
       (.vObj [("tool", .vStr "get_day_context"),
               ("input", .vObj [("user_id", .vIntNum 3),
                                ("day", .vStr "2024-03-05")])])
       (.httpError 500 .vNull (.vStr "Request failed with status code 500"))).1.status
      = 500 := rfl

/-- C7 amended: when the backend answers HTTP 500, the MCP adapter keeps
the failure inside the tool output: the tool call succeeds at protocol
level and its text content is the uniform descriptor carrying status 500;
the raw-JSON variant instead passes the backend's 500 through as its own
protocol-level response status. -/
theorem backend_500_stays_in_tool_output (base : String)
    (token : Option String) (args : JsValue) (i : Int) (d : String)
    (data msg body : JsValue)
    (hargs : zodParseArgs args = some (i, d)) (hbody : rawValidCall body) :
    (mcpCallGetDayContext base token args (.httpError 500 data msg)).1
      = .ok ⟨[⟨"text", jsonStringify (errorDescriptor (.vIntNum 500)
          (JsValue.nullishOr data (JsValue.nullishOr msg (.vStr "unknown"))))⟩]⟩
    ∧ JsValue.jsField (errorDescriptor (.vIntNum 500)
        (JsValue.nullishOr data (JsValue.nullishOr msg (.vStr "unknown")))) "status"
      = .vIntNum 500
    ∧ (rawHandlePost base token body (.httpError 500 data msg)).1.status = 500 := by
  obtain ⟨htool, hinput, hnum, hstr, hday⟩ := hbody
  have htruthy : JsValue.jsTruthy (JsValue.vStr "get_day_context") = true := rfl
  have hstreq : strictEqStr (JsValue.vStr "get_day_context") "get_day_context"
      = true := rfl
  refine ⟨?_, rfl, ?_⟩
  · simp [mcpCallGetDayContext, hargs, getDayContextHandler, errorDescriptor]
  · simp [rawHandlePost, htool, htruthy, hstreq, hinput, hnum, hstr, hday]

theorem backend_500_stays_in_tool_output_witness :
    (mcpCallGetDayContext "http://backend" (some "tok")
        (.vObj [("user_id", .vIntNum 4), ("day", .vStr "2024-04-09")])
        (.httpError 500 (.vStr "oops") (.vStr "Request failed"))).1
      = .ok ⟨[⟨"text", jsonStringify (errorDescriptor (.vIntNum 500)
          (JsValue.nullishOr (.vStr "oops")
            (JsValue.nullishOr (.vStr "Request failed") (.vStr "unknown"))))⟩]⟩
    ∧ (rawHandlePost "http://backend" (some "tok")
        (.vObj [("tool", .vStr "get_day_context"),
                ("input", .vObj [("user_id", .vIntNum 4),
                                 ("day", .vStr "2024-04-09")])])
        (.httpError 500 (.vStr "oops") (.vStr "Request failed"))).1.status = 500 :=
  ⟨(backend_500_stays_in_tool_output "http://backend" (some "tok")
      (.vObj [("user_id", .vIntNum 4), ("day", .vStr "2024-04-09")]) 4
      "2024-04-09" (.vStr "oops") (.vStr "Request failed")
      (.vObj [("tool", .vStr "get_day_context"),
              ("input", .vObj [("user_id", .vIntNum 4),
                               ("day", .vStr "2024-04-09")])])
      rfl ⟨rfl, rfl, rfl, rfl, rfl⟩).1,
   (backend_500_stays_in_tool_output "http://backend" (some "tok")
      (.vObj [("user_id", .vIntNum 4), ("day", .vStr "2024-04-09")]) 4
      "2024-04-09" (.vStr "oops") (.vStr "Request failed")
      (.vObj [("tool", .vStr "get_day_context"),
              ("input", .vObj [("user_id", .vIntNum 4),
                               ("day", .vStr "2024-04-09")])])
      rfl ⟨rfl, rfl, rfl, rfl, rfl⟩).2.2⟩

/-- C8: for every argument object the zod schema accepts as (user_id,
day), a 2xx backend response body is passed through verbatim: the MCP
variants stringify exactly the backend body into one text content item
and issue exactly one GET to the path-template URL with the optional
token header; the raw-JSON variant relays the same body unchanged under
its output field with status 200. -/
theorem success_body_passed_through_verbatim (base : String)
    (token : Option String) (args : JsValue) (i : Int) (d : String)
    (data body : JsValue)
    (hargs : zodParseArgs args = some (i, d)) (hbody : rawValidCall body) :
    mcpCallGetDayContext base token args (.success data)
      = (.ok ⟨[⟨"text", jsonStringify data⟩]⟩,
         [⟨dayUrl base i d, tokenHeaders token⟩])
    ∧ (rawHandlePost base token body (.success data)).1
      = ⟨200, .vObj [("tool", .vStr "get_day_context"), ("output", data)]⟩ := by
  obtain ⟨htool, hinput, hnum, hstr, hday⟩ := hbody
  have htruthy : JsValue.jsTruthy (JsValue.vStr "get_day_context") = true := rfl
  have hstreq : strictEqStr (JsValue.vStr "get_day_context") "get_day_context"
      = true := rfl
  constructor
  · simp [mcpCallGetDayContext, hargs, getDayContextHandler]
  · simp [rawHandlePost, htool, htruthy, hstreq, hinput, hnum, hstr, hday]

theorem success_body_passed_through_verbatim_witness :
    mcpCallGetDayContext "http://backend" (some "tok")
        (.vObj [("user_id", .vIntNum 1), ("day", .vStr "2024-01-15")])
        (.success (.vObj [("total_calories", .vIntNum 1850)]))
      = (.ok ⟨[⟨"text", jsonStringify (.vObj [("total_calories", .vIntNum 1850)])⟩]⟩,
         [⟨dayUrl "http://backend" 1 "2024-01-15", tokenHeaders (some "tok")⟩])
    ∧ (rawHandlePost "http://backend" (some "tok")
        (.vObj [("tool", .vStr "get_day_context"),
                ("input", .vObj [("user_id", .vIntNum 1),
                                 ("day", .vStr "2024-01-15")])])
        (.success (.vObj [("total_calories", .vIntNum 1850)]))).1
      = ⟨200, .vObj [("tool", .vStr "get_day_context"),
                     ("output", .vObj [("total_calories", .vIntNum 1850)])]⟩ :=
  success_body_passed_through_verbatim "http://backend" (some "tok")
    (.vObj [("user_id", .vIntNum 1), ("day", .vStr "2024-01-15")]) 1
    "2024-01-15" (.vObj [("total_calories", .vIntNum 1850)])
    (.vObj [("tool", .vStr "get_day_context"),
            ("input", .vObj [("user_id", .vIntNum 1),
                             ("day", .vStr "2024-01-15")])])
    rfl ⟨rfl, rfl, rfl, rfl, rfl⟩

end YumYummy
